import Mathlib

/-!
Verification development for the MYR-Backend express server
(src/server.js together with src/models/Orders.js, src/models/Product.js
and the Banner model).

The JSON request bodies handled by the order-intake route are modelled by
an inductive type of JavaScript/JSON values; JavaScript numbers are
modelled as integers (every value the claims exercise is integral, and no
floating-point behaviour is at stake in them).  Each express route
handler that a claim touches is embedded as a pure Lean function from the
relevant persistent state (a list of documents standing for the Mongo
collection) and request data to a response paired with the new state.
-/

/-- JSON/JavaScript values as delivered by express.json to req.body.
Numbers are modelled as integers. -/
inductive JSValue where
  | undefined : JSValue
  | nullV : JSValue
  | boolV : Bool → JSValue
  | numV : Int → JSValue
  | strV : String → JSValue
  | arrV : List JSValue → JSValue
  | objV : List (String × JSValue) → JSValue

/-- JavaScript truthiness: undefined, null, false, 0 and "" are falsy;
every array and object (including [] and a zero-valued wrapper) is truthy. -/
def truthy : JSValue → Bool
  | .undefined => false
  | .nullV => false
  | .boolV b => b
  | .numV n => !(n == 0)
  | .strV s => !(s == "")
  | .arrV _ => true
  | .objV _ => true

/-- Property access `v[k]` on a JavaScript value: on an object it is the
first binding for the key (absent keys give undefined); on every other
value it gives undefined.  Access on null/undefined throws in JavaScript;
the one place the server dereferences a possibly-null value (the cart-item
loop) models the throw separately via `checkItems`. -/
def getField : JSValue → String → JSValue
  | .objV fields, k =>
      match fields.find? (fun p => p.1 == k) with
      | some p => p.2
      | none => .undefined
  | _, _ => .undefined

/-- Delete a key from an object value (used only to state that a falsy
field is rejected exactly as if it were absent). -/
def removeField : JSValue → String → JSValue
  | .objV fields, k => .objV (fields.filter (fun p => !(p.1 == k)))
  | v, _ => v

/-- The fixed required-field list of POST /orders (src/server.js:517-529). -/
def requiredFields : List String :=
  ["orderId", "name", "contact", "city", "houseNo", "Block", "Area",
   "landmark", "paymentMethod", "cartItems", "totalAmount"]

/-- The for-loop at src/server.js:530-538: the first required field whose
value is falsy (`!orderData[field]`), if any. -/
def firstMissingField (d : JSValue) : Option String :=
  requiredFields.find? (fun f => !(truthy (getField d f)))

/-- Array.isArray dispatch for orderData.cartItems (src/server.js:541-544). -/
def cartOf (d : JSValue) : Option (List JSValue) :=
  match getField d "cartItems" with
  | .arrV items => some items
  | _ => none

/-- Outcome of the cart-item loop at src/server.js:552-560. -/
inductive CheckResult where
  | ok : CheckResult
  | bad : CheckResult
  | threw : CheckResult
deriving DecidableEq, Repr

/-- A cart item that is null or undefined makes `item.name` throw a
TypeError in the loop at src/server.js:552-560. -/
def itemNullish : JSValue → Bool
  | .nullV => true
  | .undefined => true
  | _ => false

/-- The per-item condition of src/server.js:553: item.name, item.price and
item.quantity must all be truthy. -/
def itemFieldsOk (it : JSValue) : Bool :=
  truthy (getField it "name") && truthy (getField it "price") &&
    truthy (getField it "quantity")

/-- The cart-item loop of src/server.js:552-560, in evaluation order: the
first null/undefined item throws (caught by the route's catch block); the
first item with a falsy name/price/quantity yields the 400 rejection;
otherwise the loop completes. -/
def checkItems : List JSValue → CheckResult
  | [] => .ok
  | it :: rest =>
      if itemNullish it then .threw
      else if !(itemFieldsOk it) then .bad
      else checkItems rest

/-- Mongoose's cast of a value to the String path `orderId` declared in
src/models/Orders.js (strings pass through, numbers and booleans are
stringified, arrays/objects/null fail to cast, which the route's catch
block turns into a 500). -/
def castString : JSValue → Option String
  | .strV s => some s
  | .numV n => some (toString n)
  | .boolV b => some (toString b)
  | _ => none

/-- Decimal digit-string accumulator for the numeric-string cast. -/
def parseDigitsGo : List Char → Nat → Option Nat
  | [], acc => some acc
  | c :: cs, acc =>
      if c.isDigit then parseDigitsGo cs (acc * 10 + (c.toNat - 48))
      else none

/-- A non-empty all-digit character list as a number. -/
def parseDigits : List Char → Option Nat
  | [] => none
  | cs => parseDigitsGo cs 0

/-- An integral decimal numeral, optionally signed. -/
def parseIntString (s : String) : Option Int :=
  match s.toList with
  | [] => none
  | '-' :: cs => (parseDigits cs).map (fun n => -(n : Int))
  | cs => (parseDigits cs).map (fun n => (n : Int))

/-- Mongoose's cast of a value to a Number path (price, quantity,
totalAmount in src/models/Orders.js): numbers pass, integral numeric
strings parse (JavaScript numbers being modelled as integers, so only
integral numerals are in scope), booleans become 0/1, and everything else
raises a CastError. -/
def castNumber : JSValue → Option Int
  | .numV n => some n
  | .strV s => parseIntString s
  | .boolV b => some (if b then 1 else 0)
  | _ => none

/-- Mongoose's cast of a value to a String path declared with a null
default (selectedColor, selectedSize, image): absent and null become the
null default, castable values become their string cast. -/
def castOptString : JSValue → Option (Option String)
  | .undefined => some none
  | .nullV => some none
  | v => (castString v).map some

/-- One cart line of a persisted order after the schema cast of
src/models/Orders.js:13-22. -/
structure StoredCartItem where
  name : String
  price : Int
  quantity : Int
  selectedColor : Option String
  selectedSize : Option String
  image : Option String
deriving DecidableEq, Repr

/-- A persisted order document after the schema cast (src/models/Orders.js;
the createdAt default timestamp plays no role in the creation claims and
is not carried). -/
structure OrderRecord where
  orderId : String
  name : String
  contact : String
  city : String
  houseNo : String
  Block : String
  Area : String
  landmark : String
  paymentMethod : String
  cartItems : List StoredCartItem
  totalAmount : Int
deriving DecidableEq, Repr

/-- The schema cast of one cart item. -/
def castCartItem (it : JSValue) : Option StoredCartItem :=
  (castString (getField it "name")).bind fun nm =>
  (castNumber (getField it "price")).bind fun pr =>
  (castNumber (getField it "quantity")).bind fun qt =>
  (castOptString (getField it "selectedColor")).bind fun sc =>
  (castOptString (getField it "selectedSize")).bind fun ss =>
  (castOptString (getField it "image")).bind fun im =>
  some ⟨nm, pr, qt, sc, ss, im⟩

/-- The schema cast of the cartItems array, element by element. -/
def castItems : List JSValue → Option (List StoredCartItem)
  | [] => some []
  | it :: rest =>
      (castCartItem it).bind fun c =>
      (castItems rest).bind fun cs =>
      some (c :: cs)

/-- The document construction and save of src/server.js:571-572
(`new Order(orderData)` then `save()`): every path of the submitted body
is cast to its schema type from src/models/Orders.js; any failure raises
a ValidationError that the route's catch block (src/server.js:591-596)
turns into a 500, and nothing is stored. -/
def castOrder (d : JSValue) : Option OrderRecord :=
  (castString (getField d "orderId")).bind fun oid =>
  (castString (getField d "name")).bind fun nm =>
  (castString (getField d "contact")).bind fun ct =>
  (castString (getField d "city")).bind fun cy =>
  (castString (getField d "houseNo")).bind fun hn =>
  (castString (getField d "Block")).bind fun bl =>
  (castString (getField d "Area")).bind fun ar =>
  (castString (getField d "landmark")).bind fun lm =>
  (castString (getField d "paymentMethod")).bind fun pm =>
  (cartOf d).bind fun items =>
  (castItems items).bind fun cis =>
  (castNumber (getField d "totalAmount")).bind fun ta =>
  some ⟨oid, nm, ct, cy, hn, bl, ar, lm, pm, cis, ta⟩

/-- One persisted order document: the Mongo-generated internal identifier
and the schema-cast record the save wrote. -/
structure StoredOrder where
  internalId : Nat
  record : OrderRecord
deriving DecidableEq, Repr

/-- The orders collection plus the generator of the next internal id. -/
structure OrdersState where
  orders : List StoredOrder
  nextId : Nat
deriving DecidableEq, Repr

/-- Response of POST /orders: HTTP status, the success flag, the message
and (for 201) the stored record's internal identifier echoed in the
`orderId` response field (src/server.js:577-579). -/
structure OrderResp where
  status : Nat
  success : Option Bool
  message : Option String
  newId : Option Nat
deriving DecidableEq, Repr

/-- The POST /orders handler (src/server.js:511-597): required-field loop,
cartItems array and per-item checks, the findOne duplicate-orderId lookup
(whose query casts the submitted orderId to the schema's String type),
then `new Order(orderData)` and `save()` — the full schema cast, whose
failure the catch block answers with 500 and nothing stored.  The
deferred email of line 581 has no effect on the response or the
collection and is not modelled. -/
def postOrders (st : OrdersState) (d : JSValue) : OrderResp × OrdersState :=
  match firstMissingField d with
  | some f => (⟨400, some false, some ("Missing required field: " ++ f), none⟩, st)
  | none =>
    match cartOf d with
    | none => (⟨400, some false, some "Cart items must be a non-empty array", none⟩, st)
    | some items =>
      if items.isEmpty then
        (⟨400, some false, some "Cart items must be a non-empty array", none⟩, st)
      else
        match checkItems items with
        | .threw => (⟨500, some false, some "Order failed: TypeError", none⟩, st)
        | .bad => (⟨400, some false, some "Each cart item must have name, price, and quantity", none⟩, st)
        | .ok =>
          match castString (getField d "orderId") with
          | none => (⟨500, some false, some "Order failed: CastError", none⟩, st)
          | some qoid =>
            match st.orders.find? (fun o => o.record.orderId == qoid) with
            | some _ => (⟨400, some false, some "Order ID already exists", none⟩, st)
            | none =>
              match castOrder d with
              | none => (⟨500, some false, some "Order failed: ValidationError", none⟩, st)
              | some rec =>
                (⟨201, some true, some "Order placed", some st.nextId⟩,
                 ⟨st.orders ++ [⟨st.nextId, rec⟩], st.nextId + 1⟩)

/-- The database-level uniqueness of `orderId` (src/models/Orders.js:4,
`unique: true`, maintained by the route's duplicate check). -/
def uniqueOrderIds (st : OrdersState) : Prop :=
  st.orders.Pairwise (fun a b => a.record.orderId ≠ b.record.orderId)

/-- A payload that passes every shape check of POST /orders that precedes
the duplicate-orderId lookup. -/
def validShape (d : JSValue) : Prop :=
  firstMissingField d = none ∧
    ∃ items, cartOf d = some items ∧ items ≠ [] ∧ checkItems items = .ok

/-- The server-side session record: the boolean flag set by POST /login
(src/server.js:141) and consulted by the guard. -/
structure Session where
  loggedIn : Bool
deriving DecidableEq, Repr

/-- Response shape used by endpoints that sit behind the authentication
guard: HTTP status, the `authenticated` field of the 401 body, and the
payload of the route's own response when the guard admits the request. -/
structure GuardedResp (ρ : Type) where
  status : Nat
  authenticated : Option Bool
  payload : Option ρ
deriving DecidableEq, Repr

/-- The isAuthenticated middleware (src/server.js:118-127): a request whose
session carries the loggedIn flag is passed to the route handler; any
other request is answered 401 with body containing authenticated:false,
and the handler — hence every persistence effect it would perform — never
runs. -/
def isAuthenticated {σ ρ : Type} (handler : σ → GuardedResp ρ × σ)
    (sess : Session) (st : σ) : GuardedResp ρ × σ :=
  if sess.loggedIn then handler st else (⟨401, some false, none⟩, st)

/-- One line of a persisted order's cartItems after schema casting
(src/models/Orders.js:13-22), with the fields the receipt renderer reads. -/
structure CartLine where
  name : String
  price : Int
  quantity : Int
  selectedColor : Option String
  selectedSize : Option String
deriving DecidableEq, Repr

/-- A persisted order as the read-side routes see it (src/models/Orders.js). -/
structure OrderDoc where
  orderId : String
  name : String
  contact : String
  city : String
  houseNo : String
  Block : String
  Area : String
  landmark : String
  paymentMethod : String
  cartItems : List CartLine
  totalAmount : Int
  createdAt : Int
deriving DecidableEq, Repr

/-- mongoose.isValidObjectId on a route parameter string: a 24-character
hex string or any 12-character string. -/
def isHexChar (c : Char) : Bool :=
  c.isDigit || ('a' ≤ c && c ≤ 'f') || ('A' ≤ c && c ≤ 'F')

/-- Well-formedness of an ObjectId route parameter, as mongoose's
isValidObjectId decides it for strings. -/
def isValidObjectIdStr (s : String) : Bool :=
  (s.length == 24 && s.toList.all isHexChar) || s.length == 12

/-- Response of GET /orders/:id. -/
structure OrderFetchResp where
  status : Nat
  message : Option String
  body : Option OrderDoc
deriving DecidableEq, Repr

/-- GET /orders (src/server.js:600-608): no guard is installed on the
route, so the session is taken but never consulted; the entire collection
is returned. -/
def getOrdersH (sess : Session) (db : List (String × OrderDoc)) :
    Nat × List OrderDoc :=
  (200, db.map (fun p => p.2))

/-- GET /orders/:id (src/server.js:611-622): no guard and no ObjectId
validation — findById on a malformed id throws a CastError which the
catch block turns into 500 "Failed to fetch order"; a well-formed id that
matches nothing yields 404. -/
def getOrderByIdH (sess : Session) (db : List (String × OrderDoc))
    (idParam : String) : OrderFetchResp :=
  if isValidObjectIdStr idParam then
    match db.find? (fun p => p.1 == idParam) with
    | some p => ⟨200, none, some p.2⟩
    | none => ⟨404, some "Order not found", none⟩
  else
    ⟨500, some "Failed to fetch order", none⟩

/-- The numeric content of the rendered receipt: the per-row amounts, the
recomputed subtotal, the delivery charge, and the grand total printed as
"Total Amount". -/
structure ReceiptData where
  rowAmounts : List Int
  subtotal : Int
  deliveryCharges : Int
  grandTotal : Int
deriving DecidableEq, Repr

/-- The reduce at src/server.js:857-860 (and 1024-1027): the subtotal is
recomputed from the cart lines, ignoring the stored totalAmount. -/
def receiptSubtotal (items : List CartLine) : Int :=
  items.foldl (fun sum it => sum + it.price * it.quantity) 0

/-- The totals block of the receipt (src/server.js:856-881 and
1023-1048): row amounts price*quantity, recomputed subtotal, delivery
charge 150 exactly when the subtotal is positive, and the stored
totalAmount rendered verbatim as the grand total. -/
def renderReceipt (o : OrderDoc) : ReceiptData :=
  ⟨o.cartItems.map (fun it => it.price * it.quantity),
   receiptSubtotal o.cartItems,
   if 0 < receiptSubtotal o.cartItems then 150 else 0,
   o.totalAmount⟩

/-- Response of the receipt routes: on success the PDF whose numbers are
the rendered ReceiptData. -/
structure ReceiptResp where
  status : Nat
  message : Option String
  pdf : Option ReceiptData
deriving DecidableEq, Repr

/-- GET /orders/:id/receipt (src/server.js:773-937): no guard; the id is
validated first (400 "Invalid order ID" when malformed), then looked up
(404 when absent), then the PDF is rendered and streamed. -/
def getReceiptH (sess : Session) (db : List (String × OrderDoc))
    (idParam : String) : ReceiptResp :=
  if !(isValidObjectIdStr idParam) then
    ⟨400, some "Invalid order ID", none⟩
  else
    match db.find? (fun p => p.1 == idParam) with
    | none => ⟨404, some "Order not found", none⟩
    | some p => ⟨200, none, some (renderReceipt p.2)⟩

/-- GET /orders/:id/receipt/preview (src/server.js:940-1104): identical to
the receipt route except for the Content-Disposition header, which has no
bearing on status, body or totals. -/
def getReceiptPreviewH (sess : Session) (db : List (String × OrderDoc))
    (idParam : String) : ReceiptResp :=
  if !(isValidObjectIdStr idParam) then
    ⟨400, some "Invalid order ID", none⟩
  else
    match db.find? (fun p => p.1 == idParam) with
    | none => ⟨404, some "Order not found", none⟩
    | some p => ⟨200, none, some (renderReceipt p.2)⟩

/-- DELETE /orders/:id handler body (src/server.js:625-635), the part that
runs after the guard admits the request. -/
def deleteOrderDb (idParam : String) (db : List (String × OrderDoc)) :
    GuardedResp String × List (String × OrderDoc) :=
  if isValidObjectIdStr idParam then
    match db.find? (fun p => p.1 == idParam) with
    | some _ => (⟨200, none, some "Order deleted"⟩,
                 db.filter (fun p => !(p.1 == idParam)))
    | none => (⟨404, none, some "Order not found"⟩, db)
  else
    (⟨500, none, some "Failed to delete order"⟩, db)

/-- The DELETE /orders/:id route as registered at src/server.js:625: guard
first, handler second. -/
def deleteOrderRoute (sess : Session) (db : List (String × OrderDoc))
    (idParam : String) : GuardedResp String × List (String × OrderDoc) :=
  isAuthenticated (deleteOrderDb idParam) sess db

/-- A persisted banner document (Banner model in src/unnamed/part_002 and
src/models: imageUrl, publicId, link, optional window dates, active flag,
createdAt); `id` stands for the Mongo _id. Dates are epoch milliseconds. -/
structure Banner where
  id : Nat
  imageUrl : String
  publicId : String
  link : String
  startDate : Option Int
  endDate : Option Int
  active : Bool
  createdAt : Int
deriving DecidableEq, Repr

/-- The date-window condition of the public banner query
(src/server.js:697-712): no startDate or startDate ≤ now, and no endDate
or endDate ≥ now.  A missing date and a null date satisfy their bound the
same way, as in the query's $or arms. -/
def bannerWindowOk (now : Int) (b : Banner) : Bool :=
  (match b.startDate with
   | none => true
   | some s => decide (s ≤ now)) &&
  (match b.endDate with
   | none => true
   | some e => decide (now ≤ e))

/-- Public visibility: the active flag and the date window must both pass
(src/server.js:695-713). -/
def bannerVisible (now : Int) (b : Banner) : Bool :=
  b.active && bannerWindowOk now b

/-- GET /banners (src/server.js:691-720): the banners matching the
active-and-window query, sorted createdAt descending. -/
def getBannersH (db : List Banner) (now : Int) : List Banner :=
  (db.filter (bannerVisible now)).mergeSort
    (fun a b => decide (b.createdAt ≤ a.createdAt))

/-- Response of PATCH /admin/banners/:id/toggle. -/
structure ToggleResp where
  status : Nat
  success : Bool
  active : Option Bool
deriving DecidableEq, Repr

/-- The assignment banner.active = !banner.active of src/server.js:746:
only the active flag of the document changes. -/
def flipActive (b : Banner) : Banner :=
  { b with active := !b.active }

/-- The toggle handler body (src/server.js:739-753, after the guard):
findById, flip the active flag, save; 404 when the id matches nothing.
The save persists the flipped flag on the document with that _id (_id is
unique in the collection), modelled as a pointwise update by id. -/
def toggleBannerH (db : List Banner) (bid : Nat) : ToggleResp × List Banner :=
  match db.find? (fun b => b.id == bid) with
  | none => (⟨404, false, none⟩, db)
  | some b =>
      (⟨200, true, some (!b.active)⟩,
       db.map (fun x => if x.id == bid then flipActive x else x))

/-- A file written by multer's disk storage into uploads/. -/
structure UFile where
  size : Nat
  path : String
deriving DecidableEq, Repr

/-- The per-file ceiling configured at src/server.js:196 (10 MiB). -/
def fileSizeLimit : Nat := 10 * 1024 * 1024

/-- The multipart text fields of POST /upload that the handler validates. -/
structure UploadBody where
  id : Option String
  name : Option String
  price : Option String
  category : Option String
deriving DecidableEq, Repr

/-- Truthiness of a multipart text field: absent or empty is falsy. -/
def formFieldOk : Option String → Bool
  | some s => !(s == "")
  | none => false

/-- A product record as POST /upload persists it.  The numeric parsing of
price/discount and the image/colour/size arrays play no role in any claim
and are kept as the raw field strings plus the uploaded image count. -/
structure ProductDoc where
  id : String
  name : String
  price : String
  category : String
  imageCount : Nat
deriving DecidableEq, Repr

/-- Response of the upload routes. -/
structure UploadResp where
  status : Nat
  message : Option String
  authenticated : Option Bool
deriving DecidableEq, Repr

/-- POST /upload (src/server.js:218-341) as the request pipeline registers
it: the guard, then multer, then the handler.  Multer is modelled from its
documented contract for the configured limits (src/server.js:194-203): a
file beyond fileSizeLimit aborts the parse, multer removes the files it
wrote, and forwards a MulterError.  The MulterError middleware at
src/server.js:206-215 is registered before this route in the app stack,
so Express never dispatches the route's error to it; the error falls
through to the framework's default final handler, which — the MulterError
carrying no status — answers 500 with no JSON message, and the route
handler never runs.  The result carries the response, the product
collection and the list of temporary file paths still on disk afterwards
(the handler's own validation failure at lines 238-248 returns without
unlinking, the oversize re-check at 252-268 — dead because multer already
aborted such files — unlinks everything, and the success path unlinks
each file after its Cloudinary upload). -/
def postUploadH (sess : Session) (files : List UFile) (body : UploadBody)
    (products : List ProductDoc) : UploadResp × List ProductDoc × List String :=
  if !sess.loggedIn then
    (⟨401, none, some false⟩, products, [])
  else if files.any (fun f => fileSizeLimit < f.size) then
    (⟨500, none, none⟩, products, [])
  else if !(formFieldOk body.id && formFieldOk body.name &&
            formFieldOk body.price && formFieldOk body.category) then
    (⟨400, some "Missing required fields: id, name, price, category", none⟩,
     products, files.map (fun f => f.path))
  else if files.any (fun f => fileSizeLimit < f.size) then
    (⟨400, some "One or more images exceed 10MB limit", none⟩, products, [])
  else
    (⟨200, some "Product saved", none⟩,
     products ++ [⟨(body.id.getD ""), (body.name.getD ""), (body.price.getD ""),
                  (body.category.getD ""), files.length⟩],
     [])

/-- POST /admin/banners (src/server.js:638-688) under the same pipeline:
guard, multer single-file parse with the same limits, then the handler
(400 "No image uploaded" without a file; otherwise upload to Cloudinary,
unlink the temporary file, save the banner).  As for postUploadH, an
oversize file makes multer remove what it wrote and forward a MulterError
that no later error middleware catches (the one at src/server.js:206-215
precedes this route), so the default final handler answers 500 and the
route handler never runs.  cloudUrl and cloudId stand for the
secure_url/public_id Cloudinary returns; freshId for the new document's
_id; dates arrive already parsed. -/
def postAdminBannerH (sess : Session) (file : Option UFile)
    (link : Option String) (startDate endDate : Option Int)
    (cloudUrl cloudId : String) (freshId : Nat) (now : Int)
    (banners : List Banner) : UploadResp × List Banner × List String :=
  if !sess.loggedIn then
    (⟨401, none, some false⟩, banners, [])
  else
    match file with
    | none => (⟨400, some "No image uploaded", none⟩, banners, [])
    | some f =>
      if fileSizeLimit < f.size then
        (⟨500, none, none⟩, banners, [])
      else
        (⟨200, some "Banner uploaded successfully", none⟩,
         banners ++ [⟨freshId, cloudUrl, cloudId, link.getD "",
                      startDate, endDate, true, now⟩],
         [])

/-- A concrete cart line used by witnesses. -/
def cartItem1 : JSValue :=
  .objV [("name", .strV "Forceps"), ("price", .numV 1000), ("quantity", .numV 2)]

/-- A concrete valid order payload used by witnesses. -/
def orderPayload : JSValue :=
  .objV [("orderId", .strV "ORD-1"), ("name", .strV "Ali"),
         ("contact", .strV "0300-0000000"), ("city", .strV "Karachi"),
         ("houseNo", .strV "12"), ("Block", .strV "B"),
         ("Area", .strV "Gulshan"), ("landmark", .strV "near park"),
         ("paymentMethod", .strV "COD"), ("cartItems", .arrV [cartItem1]),
         ("totalAmount", .numV 2150)]

/-- The payload of orderPayload with totalAmount present but equal to 0. -/
def orderPayloadZeroTotal : JSValue :=
  .objV [("orderId", .strV "ORD-1"), ("name", .strV "Ali"),
         ("contact", .strV "0300-0000000"), ("city", .strV "Karachi"),
         ("houseNo", .strV "12"), ("Block", .strV "B"),
         ("Area", .strV "Gulshan"), ("landmark", .strV "near park"),
         ("paymentMethod", .strV "COD"), ("cartItems", .arrV [cartItem1]),
         ("totalAmount", .numV 0)]

/-- A cart line whose price is present but 0. -/
def cartItemZeroPrice : JSValue :=
  .objV [("name", .strV "Forceps"), ("price", .numV 0), ("quantity", .numV 2)]

/-- The payload of orderPayload with a zero-priced cart line. -/
def orderPayloadZeroPrice : JSValue :=
  .objV [("orderId", .strV "ORD-2"), ("name", .strV "Ali"),
         ("contact", .strV "0300-0000000"), ("city", .strV "Karachi"),
         ("houseNo", .strV "12"), ("Block", .strV "B"),
         ("Area", .strV "Gulshan"), ("landmark", .strV "near park"),
         ("paymentMethod", .strV "COD"),
         ("cartItems", .arrV [cartItemZeroPrice]),
         ("totalAmount", .numV 2150)]

/-- A cart line whose price is a truthy string that does not cast to a
number: it passes the route's truthiness checks but fails the schema
cast at save time. -/
def cartItemBadPrice : JSValue :=
  .objV [("name", .strV "Forceps"), ("price", .strV "abc"),
         ("quantity", .numV 2)]

/-- The payload of orderPayload with the uncastable cart line and a fresh
orderId: every route check passes, the save throws. -/
def orderPayloadBadPrice : JSValue :=
  .objV [("orderId", .strV "ORD-3"), ("name", .strV "Ali"),
         ("contact", .strV "0300-0000000"), ("city", .strV "Karachi"),
         ("houseNo", .strV "12"), ("Block", .strV "B"),
         ("Area", .strV "Gulshan"), ("landmark", .strV "near park"),
         ("paymentMethod", .strV "COD"),
         ("cartItems", .arrV [cartItemBadPrice]),
         ("totalAmount", .numV 2150)]

/-- The schema cast of orderPayload: all values already carry schema
types, so the cast is verbatim. -/
def orderRecord1 : OrderRecord :=
  ⟨"ORD-1", "Ali", "0300-0000000", "Karachi", "12", "B", "Gulshan",
   "near park", "COD", [⟨"Forceps", 1000, 2, none, none, none⟩], 2150⟩

/-- The order of the spec's receipt example, with a grand total that
deliberately disagrees with subtotal plus delivery charge. -/
def receiptExample : OrderDoc :=
  ⟨"ORD-9", "Ali", "0300-0000000", "Karachi", "12", "B", "Gulshan",
   "near park", "COD",
   [⟨"Forceps", 1000, 2, none, none⟩, ⟨"Scissors", 500, 1, none, none⟩],
   9999, 0⟩

lemma foldl_add_eq_sum (f : CartLine → Int) :
    ∀ (l : List CartLine) (acc : Int),
      l.foldl (fun sum it => sum + f it) acc = acc + (l.map f).sum := by
  intro l
  induction l with
  | nil => simp
  | cons hd tl ih =>
      intro acc
      simp only [List.foldl_cons, List.map_cons, List.sum_cons, ih]
      ring

lemma receiptSubtotal_eq_sum (items : List CartLine) :
    receiptSubtotal items = (items.map (fun it => it.price * it.quantity)).sum := by
  unfold receiptSubtotal
  simpa using foldl_add_eq_sum (fun it => it.price * it.quantity) items 0

/-- C3: for every stored order the receipt's subtotal is the sum of
price times quantity over the cart lines, recomputed independently of the
stored totalAmount; the delivery charge is 150 exactly when that subtotal
is positive and 0 otherwise; the grand total printed is the stored
totalAmount verbatim — also on the concrete example where the cart is
[(1000,2),(500,1)], whose subtotal is 2500 and whose stored total 9999
disagrees with subtotal plus delivery yet is rendered unchanged. -/
theorem receipt_totals_contract :
    (∀ o : OrderDoc,
        (renderReceipt o).subtotal =
            (o.cartItems.map (fun it => it.price * it.quantity)).sum ∧
        (renderReceipt o).deliveryCharges =
            (if 0 < (renderReceipt o).subtotal then 150 else 0) ∧
        (renderReceipt o).grandTotal = o.totalAmount) ∧
    renderReceipt receiptExample = ⟨[2000, 500], 2500, 150, 9999⟩ ∧
    (renderReceipt receiptExample).grandTotal ≠
        (renderReceipt receiptExample).subtotal +
          (renderReceipt receiptExample).deliveryCharges := by
  refine ⟨fun o => ⟨receiptSubtotal_eq_sum o.cartItems, rfl, rfl⟩, by decide, by decide⟩

/-- C10: the order-read surface consults no session state: GET /orders,
GET /orders/:id and both receipt endpoints answer identically for any two
sessions (in particular with and without the loggedIn flag), and the
sessionless GET /orders already returns the full collection of order
documents (customer name, contact and address included). -/
theorem order_reads_ignore_session :
    ∀ (s1 s2 : Session) (db : List (String × OrderDoc)) (idParam : String),
      getOrdersH s1 db = getOrdersH s2 db ∧
      getOrderByIdH s1 db idParam = getOrderByIdH s2 db idParam ∧
      getReceiptH s1 db idParam = getReceiptH s2 db idParam ∧
      getReceiptPreviewH s1 db idParam = getReceiptPreviewH s2 db idParam ∧
      (getOrdersH ⟨false⟩ db).1 = 200 ∧
      (getOrdersH ⟨false⟩ db).2 = db.map (fun p => p.2) := by
  intro s1 s2 db idParam
  exact ⟨rfl, rfl, rfl, rfl, rfl, rfl⟩

/-- C8: a request without the loggedIn session flag to any endpoint behind
the isAuthenticated middleware is answered 401 with authenticated:false,
and the guarded handler never runs, so the state shows no side effect; in
particular the guarded DELETE /orders/:id route leaves the collection
untouched. -/
theorem guard_denies_unauthenticated :
    (∀ (σ ρ : Type) (handler : σ → GuardedResp ρ × σ) (sess : Session) (st : σ),
        sess.loggedIn = false →
        isAuthenticated handler sess st = (⟨401, some false, none⟩, st)) ∧
    (∀ (sess : Session) (db : List (String × OrderDoc)) (idParam : String),
        sess.loggedIn = false →
        deleteOrderRoute sess db idParam = (⟨401, some false, none⟩, db)) := by
  constructor
  · intro σ ρ handler sess st h
    simp [isAuthenticated, h]
  · intro sess db idParam h
    simp [deleteOrderRoute, isAuthenticated, h]

/-- Witness for guard_denies_unauthenticated at a concrete handler, state
and sessionless request. -/
theorem guard_denies_unauthenticated_witness :
    isAuthenticated (fun n : Nat => (⟨200, none, some (0 : Nat)⟩, n + 1)) ⟨false⟩ 7 =
        (⟨401, some false, none⟩, 7) ∧
    deleteOrderRoute ⟨false⟩ [] "663a1b2c3d4e5f6a7b8c9d0e" =
        (⟨401, some false, none⟩, []) :=
  ⟨guard_denies_unauthenticated.1 Nat Nat _ ⟨false⟩ 7 rfl,
   guard_denies_unauthenticated.2 ⟨false⟩ [] "663a1b2c3d4e5f6a7b8c9d0e" rfl⟩

/-- C4 counterexample: the claim says GET /orders/:id validates the id and
returns 400 for a malformed one; on the malformed id "nope" (neither a
24-hex nor a 12-character string) the handler instead lets findById throw
and answers 500. -/
theorem getOrderById_malformed_is_500 :
    (getOrderByIdH ⟨true⟩ [] "nope").status = 500 ∧
    (getOrderByIdH ⟨true⟩ [] "nope").status ≠ 400 := by
  decide

/-- C4 amended: GET /orders/:id performs no well-formedness check — a
malformed id makes the lookup throw and the handler answers 500 "Failed
to fetch order" — while a well-formed id with no matching order yields
404; the receipt endpoints are the routes that validate the id first and
answer 400 "Invalid order ID" when it is malformed. -/
theorem getOrderById_status_contract :
    ∀ (sess : Session) (db : List (String × OrderDoc)) (idParam : String),
      (isValidObjectIdStr idParam = false →
        getOrderByIdH sess db idParam = ⟨500, some "Failed to fetch order", none⟩ ∧
        getReceiptH sess db idParam = ⟨400, some "Invalid order ID", none⟩ ∧
        getReceiptPreviewH sess db idParam = ⟨400, some "Invalid order ID", none⟩) ∧
      (isValidObjectIdStr idParam = true →
        db.find? (fun p => p.1 == idParam) = none →
        getOrderByIdH sess db idParam = ⟨404, some "Order not found", none⟩) := by
  intro sess db idParam
  constructor
  · intro h
    refine ⟨?_, ?_, ?_⟩ <;> simp [getOrderByIdH, getReceiptH, getReceiptPreviewH, h]
  · intro h hnone
    simp [getOrderByIdH, h, hnone]

/-- Witness for getOrderById_status_contract: a malformed id gets 500 from
the order fetch and 400 from the receipt route; a well-formed unknown id
gets 404. -/
theorem getOrderById_status_contract_witness :
    getOrderByIdH ⟨false⟩ [] "nope" = ⟨500, some "Failed to fetch order", none⟩ ∧
    getReceiptH ⟨false⟩ [] "nope" = ⟨400, some "Invalid order ID", none⟩ ∧
    getOrderByIdH ⟨false⟩ [] "aaaaaaaaaaaaaaaaaaaaaaaa" =
        ⟨404, some "Order not found", none⟩ :=
  ⟨((getOrderById_status_contract ⟨false⟩ [] "nope").1 (by decide)).1,
   ((getOrderById_status_contract ⟨false⟩ [] "nope").1 (by decide)).2.1,
   (getOrderById_status_contract ⟨false⟩ [] "aaaaaaaaaaaaaaaaaaaaaaaa").2
     (by decide) rfl⟩

/-- C7 counterexample: the claim says an oversize upload is rejected with
status 400; on a concrete authenticated request carrying a 10 MiB + 1
file, both POST /upload and POST /admin/banners instead answer 500 — the
MulterError middleware of src/server.js:206-215 is registered before these
routes, so the error reaches only the framework's default handler. -/
theorem oversize_upload_gets_500_not_400 :
    (postUploadH ⟨true⟩ [⟨fileSizeLimit + 1, "uploads/images-1.png"⟩]
        ⟨some "p1", some "Forceps", some "1000", some "surgical"⟩ []).1.status = 500 ∧
    (postUploadH ⟨true⟩ [⟨fileSizeLimit + 1, "uploads/images-1.png"⟩]
        ⟨some "p1", some "Forceps", some "1000", some "surgical"⟩ []).1.status ≠ 400 ∧
    (postAdminBannerH ⟨true⟩ (some ⟨fileSizeLimit + 1, "uploads/image-1.png"⟩)
        none none none "https://res.cloudinary.example/b.png" "myr-banners/b"
        3 0 []).1.status = 500 ∧
    (postAdminBannerH ⟨true⟩ (some ⟨fileSizeLimit + 1, "uploads/image-1.png"⟩)
        none none none "https://res.cloudinary.example/b.png" "myr-banners/b"
        3 0 []).1.status ≠ 400 := by
  refine ⟨rfl, by decide, rfl, by decide⟩

/-- C7 amended: an authenticated upload request carrying a file beyond the
10 MiB ceiling is rejected with status 500 (multer's size-limit error
escapes to the default handler, the error middleware being registered
before the routes), the product (or banner) collection is unchanged, and
no temporary file remains on disk — for both POST /upload and
POST /admin/banners. -/
theorem oversize_upload_rejected :
    (∀ (sess : Session) (files : List UFile) (body : UploadBody)
        (products : List ProductDoc) (f : UFile),
        sess.loggedIn = true → f ∈ files → fileSizeLimit < f.size →
        postUploadH sess files body products = (⟨500, none, none⟩, products, [])) ∧
    (∀ (sess : Session) (file : UFile) (link : Option String)
        (sD eD : Option Int) (cloudUrl cloudId : String) (freshId : Nat)
        (now : Int) (banners : List Banner),
        sess.loggedIn = true → fileSizeLimit < file.size →
        postAdminBannerH sess (some file) link sD eD cloudUrl cloudId freshId
            now banners = (⟨500, none, none⟩, banners, [])) := by
  constructor
  · intro sess files body products f hlog hmem hsize
    simp [postUploadH, hlog]
    intro hall
    exact absurd hsize (by simpa using hall f hmem)
  · intro sess file link sD eD cloudUrl cloudId freshId now banners hlog hsize
    simp [postAdminBannerH, hlog, hsize]

/-- Witness for oversize_upload_rejected at a concrete 10 MiB + 1 file. -/
theorem oversize_upload_rejected_witness :
    postUploadH ⟨true⟩ [⟨fileSizeLimit + 1, "uploads/images-1.png"⟩]
        ⟨some "p1", some "Forceps", some "1000", some "surgical"⟩ [] =
      (⟨500, none, none⟩, [], []) ∧
    postAdminBannerH ⟨true⟩ (some ⟨fileSizeLimit + 1, "uploads/image-1.png"⟩)
        none none none "https://res.cloudinary.example/b.png" "myr-banners/b"
        3 0 [] =
      (⟨500, none, none⟩, [], []) :=
  ⟨oversize_upload_rejected.1 ⟨true⟩ [⟨fileSizeLimit + 1, "uploads/images-1.png"⟩]
      ⟨some "p1", some "Forceps", some "1000", some "surgical"⟩ []
      ⟨fileSizeLimit + 1, "uploads/images-1.png"⟩ rfl (by simp)
      (by simp [fileSizeLimit]),
   oversize_upload_rejected.2 ⟨true⟩ ⟨fileSizeLimit + 1, "uploads/image-1.png"⟩
      none none none "https://res.cloudinary.example/b.png" "myr-banners/b"
      3 0 [] rfl (by simp [fileSizeLimit])⟩

/-- C5: the public banner list contains exactly the banners whose active
flag is set and whose optional window contains now, is ordered newest
first by createdAt, and a banner outside its window never appears, its
active flag notwithstanding. -/
theorem public_banner_list_contract :
    ∀ (db : List Banner) (now : Int) (b : Banner),
      (b ∈ getBannersH db now ↔ b ∈ db ∧ bannerVisible now b = true) ∧
      List.Pairwise (fun x y : Banner => y.createdAt ≤ x.createdAt)
        (getBannersH db now) ∧
      (b ∈ db → bannerWindowOk now b = false → b ∉ getBannersH db now) := by
  intro db now b
  have hmem : b ∈ getBannersH db now ↔ b ∈ db ∧ bannerVisible now b = true := by
    unfold getBannersH
    rw [List.mem_mergeSort, List.mem_filter]
  refine ⟨hmem, ?_, ?_⟩
  · have hsorted := @List.sorted_mergeSort Banner
      (fun a c : Banner => decide (c.createdAt ≤ a.createdAt))
      (fun a c e hac hce => by
        simp only [decide_eq_true_eq] at *
        omega)
      (fun a c => by
        simp only [decide_eq_true_eq, Bool.or_eq_true]
        omega)
      (db.filter (bannerVisible now))
    exact hsorted.imp (by simp only [decide_eq_true_eq]; exact fun h => h)
  · intro hdb hwin hcontra
    have hvis := (hmem.mp hcontra).2
    simp [bannerVisible, hwin] at hvis

/-- Witness for public_banner_list_contract: an active banner whose window
ended at time 0 is absent from the public list at time 10. -/
theorem public_banner_list_contract_witness :
    (⟨1, "https://res.cloudinary.example/b.png", "myr-banners/b", "",
       none, some 0, true, 5⟩ : Banner) ∉
      getBannersH
        [⟨1, "https://res.cloudinary.example/b.png", "myr-banners/b", "",
          none, some 0, true, 5⟩] 10 :=
  (public_banner_list_contract
      [⟨1, "https://res.cloudinary.example/b.png", "myr-banners/b", "",
        none, some 0, true, 5⟩] 10
      ⟨1, "https://res.cloudinary.example/b.png", "myr-banners/b", "",
       none, some 0, true, 5⟩).2.2 (by simp) (by decide)

lemma find?_map_flip (bid : Nat) :
    ∀ l : List Banner,
      (l.map (fun x => if x.id == bid then flipActive x else x)).find?
          (fun x => x.id == bid) =
        (l.find? (fun x => x.id == bid)).map flipActive := by
  intro l
  induction l with
  | nil => simp
  | cons hd tl ih =>
      by_cases h : hd.id == bid
      · simp [List.find?, h, flipActive]
      · simp only [List.map_cons, List.find?]
        rw [if_neg (by simp_all)]
        simp only [h]
        simpa using ih

lemma flip_flip_map (bid : Nat) (l : List Banner) :
    ((l.map (fun x => if x.id == bid then flipActive x else x)).map
        (fun x => if x.id == bid then flipActive x else x)) = l := by
  rw [List.map_map]
  have hfun : ((fun x : Banner => if x.id == bid then flipActive x else x) ∘
      (fun x : Banner => if x.id == bid then flipActive x else x)) = id := by
    funext x
    cases x with
    | mk xid xurl xpub xlink xsd xed xact xca =>
        by_cases h : xid == bid
        · simp [Function.comp, flipActive, h]
        · simp [Function.comp, flipActive, h]
  rw [hfun, List.map_id]

/-- C6: toggling an existing banner flips its active flag and nothing
else (the updated document keeps every other field verbatim, and every
other banner is untouched), toggling twice restores the collection, and
toggling an unknown id answers 404 and changes nothing. -/
theorem toggle_banner_contract :
    ∀ (db : List Banner) (bid : Nat),
      (db.find? (fun x => x.id == bid) = none →
        toggleBannerH db bid = (⟨404, false, none⟩, db)) ∧
      (∀ b, db.find? (fun x => x.id == bid) = some b →
        (toggleBannerH db bid).1 = ⟨200, true, some (!b.active)⟩ ∧
        (toggleBannerH db bid).2.find? (fun x => x.id == bid) =
          some ⟨b.id, b.imageUrl, b.publicId, b.link, b.startDate,
                b.endDate, !b.active, b.createdAt⟩ ∧
        (∀ x ∈ db, (x.id == bid) = false → x ∈ (toggleBannerH db bid).2) ∧
        (toggleBannerH (toggleBannerH db bid).2 bid).2 = db) := by
  intro db bid
  constructor
  · intro h
    simp [toggleBannerH, h]
  · intro b hfind
    have hresp : (toggleBannerH db bid).2 =
        db.map (fun x => if x.id == bid then flipActive x else x) := by
      simp [toggleBannerH, hfind]
    refine ⟨by simp [toggleBannerH, hfind], ?_, ?_, ?_⟩
    · rw [hresp, find?_map_flip, hfind]
      cases b
      rfl
    · intro x hx hne
      rw [hresp]
      have hfix : (fun y : Banner => if y.id == bid then flipActive y else y) x = x := by
        simp [hne]
      exact hfix ▸ List.mem_map_of_mem _ hx
    · have hfind2 : (db.map (fun x => if x.id == bid then flipActive x else x)).find?
          (fun x => x.id == bid) = some (flipActive b) := by
        rw [find?_map_flip, hfind]
        rfl
      have hstep : (toggleBannerH
          (db.map (fun x => if x.id == bid then flipActive x else x)) bid).2 =
          (db.map (fun x => if x.id == bid then flipActive x else x)).map
            (fun x => if x.id == bid then flipActive x else x) := by
        unfold toggleBannerH
        rw [hfind2]
      rw [hresp, hstep]
      exact flip_flip_map bid db

/-- Witness for toggle_banner_contract on a one-banner collection. -/
theorem toggle_banner_contract_witness :
    (toggleBannerH [⟨1, "https://res.cloudinary.example/b.png",
        "myr-banners/b", "", none, none, true, 5⟩] 1).1 =
      ⟨200, true, some false⟩ ∧
    (toggleBannerH (toggleBannerH [⟨1, "https://res.cloudinary.example/b.png",
        "myr-banners/b", "", none, none, true, 5⟩] 1).2 1).2 =
      [⟨1, "https://res.cloudinary.example/b.png",
        "myr-banners/b", "", none, none, true, 5⟩] := by
  have h := (toggle_banner_contract
      [⟨1, "https://res.cloudinary.example/b.png",
        "myr-banners/b", "", none, none, true, 5⟩] 1).2
      ⟨1, "https://res.cloudinary.example/b.png",
        "myr-banners/b", "", none, none, true, 5⟩ rfl
  exact ⟨h.1, h.2.2.2⟩

lemma find?_pointwise {α : Type} (p q : α → Bool) :
    ∀ l : List α, (∀ a ∈ l, p a = q a) → l.find? p = l.find? q := by
  intro l
  induction l with
  | nil => intro _; rfl
  | cons hd tl ih =>
      intro h
      have hhd := h hd (by simp)
      simp only [List.find?, hhd]
      cases hq : q hd
      · exact ih (fun a ha => h a (by simp [ha]))
      · rfl

lemma find?_prefix_first {α : Type} (p : α → Bool) :
    ∀ (pre : List α) (f : α) (suf : List α),
      (∀ g ∈ pre, p g = false) → p f = true →
      (pre ++ f :: suf).find? p = some f := by
  intro pre
  induction pre with
  | nil =>
      intro f suf _ hf
      simp [List.find?, hf]
  | cons hd tl ih =>
      intro f suf hall hf
      have hhd : p hd = false := hall hd (by simp)
      simp only [List.cons_append, List.find?, hhd]
      exact ih f suf (fun g hg => hall g (by simp [hg])) hf

lemma getField_removeField_self (d : JSValue) (f : String) :
    getField (removeField d f) f = JSValue.undefined := by
  cases d <;> try rfl
  case objV fields =>
    have hnone : (fields.filter (fun p => !(p.1 == f))).find?
        (fun p => p.1 == f) = none := by
      rw [List.find?_eq_none]
      intro p hp
      have h2 := (List.mem_filter.mp hp).2
      simp at h2
      simp [h2]
    simp [removeField, getField, hnone]

lemma filterKey_find? (f g : String) (h : ¬(g = f)) :
    ∀ fields : List (String × JSValue),
      (fields.filter (fun p => !(p.1 == f))).find? (fun p => p.1 == g) =
        fields.find? (fun p => p.1 == g) := by
  intro fields
  induction fields with
  | nil => rfl
  | cons hd tl ih =>
      cases hf : (hd.1 == f) with
      | true =>
          have hd1 : hd.1 = f := by simpa using hf
          have hg : (hd.1 == g) = false := by
            rw [hd1]
            cases hfg : (f == g) with
            | true => exact absurd (beq_iff_eq.mp hfg).symm h
            | false => rfl
          simp [List.filter_cons, List.find?, hf, hg, ih]
      | false =>
          cases hg : (hd.1 == g) with
          | true => simp [List.filter_cons, List.find?, hf, hg]
          | false => simp [List.filter_cons, List.find?, hf, hg, ih]

lemma getField_removeField_ne (d : JSValue) (f g : String) (h : ¬(g = f)) :
    getField (removeField d f) g = getField d g := by
  cases d <;> try rfl
  case objV fields =>
    simp [removeField, getField, filterKey_find? f g h fields]

lemma cartOf_some (d : JSValue) (items : List JSValue)
    (h : cartOf d = some items) : getField d "cartItems" = JSValue.arrV items := by
  unfold cartOf at h
  cases hg : getField d "cartItems" <;> rw [hg] at h <;> simp_all

/-- A successful document cast carries the string cast of the submitted
orderId and the elementwise cast of the submitted cart items. -/
lemma castOrder_inv (d : JSValue) (rec : OrderRecord)
    (h : castOrder d = some rec) :
    castString (getField d "orderId") = some rec.orderId ∧
    (cartOf d).bind castItems = some rec.cartItems := by
  unfold castOrder at h
  simp only [Option.bind_eq_some, Option.some.injEq] at h
  obtain ⟨oid, h1, nm, h2, ct, h3, cy, h4, hn, h5, bl, h6, ar, h7, lm, h8,
    pm, h9, its, h10, cis, h11, ta, h12, heq⟩ := h
  subst heq
  exact ⟨h1, by rw [h10]; simpa using h11⟩

/-- If POST /orders answered 201 then it passed every check, the schema
cast succeeded, and the new state is the old collection with precisely the
cast record appended. -/
lemma postOrders_created (st : OrdersState) (d : JSValue)
    (h : (postOrders st d).1.status = 201) :
    ∃ qoid rec, castString (getField d "orderId") = some qoid ∧
      st.orders.find? (fun o => o.record.orderId == qoid) = none ∧
      castOrder d = some rec ∧
      (postOrders st d).2 = ⟨st.orders ++ [⟨st.nextId, rec⟩], st.nextId + 1⟩ := by
  cases hfm : firstMissingField d with
  | some f => simp [postOrders, hfm] at h
  | none =>
    cases hc : cartOf d with
    | none => simp [postOrders, hfm, hc] at h
    | some items =>
      cases hemp : items.isEmpty
      case true => simp [postOrders, hfm, hc, hemp] at h
      case false =>
        cases hchk : checkItems items with
        | threw => simp [postOrders, hfm, hc, hemp, hchk] at h
        | bad => simp [postOrders, hfm, hc, hemp, hchk] at h
        | ok =>
          cases hcast : castString (getField d "orderId") with
          | none => simp [postOrders, hfm, hc, hemp, hchk, hcast] at h
          | some qoid =>
            cases hfind : st.orders.find? (fun o => o.record.orderId == qoid) with
            | some o => simp [postOrders, hfm, hc, hemp, hchk, hcast, hfind] at h
            | none =>
              cases hord : castOrder d with
              | none =>
                  simp [postOrders, hfm, hc, hemp, hchk, hcast, hfind, hord] at h
              | some rec =>
                  exact ⟨qoid, rec, rfl, hfind, rfl,
                    by simp [postOrders, hfm, hc, hemp, hchk, hcast, hfind, hord]⟩

/-- Every branch of POST /orders preserves pairwise-distinct orderIds:
the rejecting branches leave the collection alone and the creating branch
appends only after the duplicate lookup came back empty. -/
lemma postOrders_preserves_unique (st : OrdersState) (d : JSValue)
    (hu : uniqueOrderIds st) : uniqueOrderIds (postOrders st d).2 := by
  cases hfm : firstMissingField d with
  | some f => simpa [postOrders, hfm] using hu
  | none =>
    cases hc : cartOf d with
    | none => simpa [postOrders, hfm, hc] using hu
    | some items =>
      cases hemp : items.isEmpty
      case true => simpa [postOrders, hfm, hc, hemp] using hu
      case false =>
        cases hchk : checkItems items with
        | threw => simpa [postOrders, hfm, hc, hemp, hchk] using hu
        | bad => simpa [postOrders, hfm, hc, hemp, hchk] using hu
        | ok =>
          cases hcast : castString (getField d "orderId") with
          | none => simpa [postOrders, hfm, hc, hemp, hchk, hcast] using hu
          | some qoid =>
            cases hfind : st.orders.find? (fun o => o.record.orderId == qoid) with
            | some o => simpa [postOrders, hfm, hc, hemp, hchk, hcast, hfind] using hu
            | none =>
              cases hord : castOrder d with
              | none =>
                  simpa [postOrders, hfm, hc, hemp, hchk, hcast, hfind, hord] using hu
              | some rec =>
                have hqoid : rec.orderId = qoid := by
                  have h2 := (castOrder_inv d rec hord).1
                  rw [hcast] at h2
                  exact (Option.some.inj h2).symm
                have hnew : ∀ a ∈ st.orders, a.record.orderId ≠ rec.orderId := by
                  intro a ha heq
                  have hf := List.find?_eq_none.mp hfind a ha
                  rw [heq, hqoid] at hf
                  simp at hf
                unfold uniqueOrderIds
                have hred : (postOrders st d).2.orders =
                    st.orders ++ [⟨st.nextId, rec⟩] := by
                  simp [postOrders, hfm, hc, hemp, hchk, hcast, hfind, hord]
                rw [hred, List.pairwise_append]
                refine ⟨hu, by simp, ?_⟩
                intro a ha b hb
                simp only [List.mem_singleton] at hb
                subst hb
                exact hnew a ha

/-- C1: starting from any collection with pairwise-distinct orderIds, if a
creation request succeeded (201) then a second well-shaped request
carrying the same orderId is rejected 400 "Order ID already exists" and
leaves the collection exactly as it was, and pairwise uniqueness of
orderId holds after both requests. -/
theorem duplicate_orderId_rejected :
    ∀ (st : OrdersState) (d1 d2 : JSValue),
      uniqueOrderIds st →
      castString (getField d2 "orderId") = castString (getField d1 "orderId") →
      validShape d2 →
      (postOrders st d1).1.status = 201 →
      (postOrders (postOrders st d1).2 d2).1 =
          ⟨400, some false, some "Order ID already exists", none⟩ ∧
      (postOrders (postOrders st d1).2 d2).2 = (postOrders st d1).2 ∧
      uniqueOrderIds (postOrders st d1).2 ∧
      uniqueOrderIds (postOrders (postOrders st d1).2 d2).2 := by
  intro st d1 d2 hu hsame hshape h201
  obtain ⟨qoid, rec, hcast1, hfind1, hord1, hst1⟩ := postOrders_created st d1 h201
  obtain ⟨hfm2, items2, hc2, hne2, hchk2⟩ := hshape
  have hqoid : rec.orderId = qoid := by
    have h2 := (castOrder_inv d1 rec hord1).1
    rw [hcast1] at h2
    exact (Option.some.inj h2).symm
  have hcast2 : castString (getField d2 "orderId") = some qoid := by
    rw [hsame, hcast1]
  have hemp2 : items2.isEmpty = false := by
    cases items2 with
    | nil => exact absurd rfl hne2
    | cons a l => rfl
  have hu1 : uniqueOrderIds (postOrders st d1).2 :=
    postOrders_preserves_unique st d1 hu
  have hresult : postOrders (postOrders st d1).2 d2 =
      (⟨400, some false, some "Order ID already exists", none⟩,
       (postOrders st d1).2) := by
    rw [hst1]
    simp [postOrders, hfm2, hc2, hemp2, hchk2, hcast2, List.find?_append,
      hfind1, List.find?, hqoid]
  exact ⟨by rw [hresult], by rw [hresult], hu1, by rw [hresult]; exact hu1⟩

/-- Witness for duplicate_orderId_rejected: submitting orderPayload twice
to the empty collection stores it once and gets the duplicate rejection
the second time. -/
theorem duplicate_orderId_rejected_witness :
    (postOrders (postOrders ⟨[], 0⟩ orderPayload).2 orderPayload).1 =
        ⟨400, some false, some "Order ID already exists", none⟩ ∧
    (postOrders (postOrders ⟨[], 0⟩ orderPayload).2 orderPayload).2 =
        (postOrders ⟨[], 0⟩ orderPayload).2 ∧
    uniqueOrderIds (postOrders ⟨[], 0⟩ orderPayload).2 ∧
    uniqueOrderIds (postOrders (postOrders ⟨[], 0⟩ orderPayload).2 orderPayload).2 :=
  duplicate_orderId_rejected ⟨[], 0⟩ orderPayload orderPayload
    List.Pairwise.nil rfl ⟨rfl, [cartItem1], rfl, by simp, rfl⟩ rfl

/-- C2 counterexample: the claim says a payload passing every enumerated
check with an unused orderId is persisted with a 201; orderPayloadBadPrice
passes all of them (its price "abc" is truthy) yet the schema cast at
save() throws, the catch block answers 500, and the empty collection
stays empty. -/
theorem postOrders_uncastable_500 :
    validShape orderPayloadBadPrice ∧
    castString (getField orderPayloadBadPrice "orderId") = some "ORD-3" ∧
    (postOrders ⟨[], 0⟩ orderPayloadBadPrice).1.status = 500 ∧
    (postOrders ⟨[], 0⟩ orderPayloadBadPrice).1.status ≠ 201 ∧
    (postOrders ⟨[], 0⟩ orderPayloadBadPrice).2 = ⟨[], 0⟩ :=
  ⟨⟨rfl, [cartItemBadPrice], rfl, by simp, rfl⟩, rfl, rfl, by decide, rfl⟩

/-- C2 amended: the POST /orders validation and creation contract — a 400
naming the first failing required field when an earlier-truthy prefix is
followed by an absent field; a 400 when cartItems is not an array or is
empty; a 400 when some cart item lacks a truthy name, price or quantity;
a request passing those checks with an unused orderId whose values fail
the mongoose schema cast is answered 500 with nothing stored; otherwise
the schema-cast document is persisted and the response is 201 carrying
the new record's internal identifier, the stored cartItems being the
elementwise casts of the submitted items — and the cast keeps a
schema-typed item (string name, numeric price and quantity) verbatim. -/
theorem postOrders_create_contract :
    ∀ (st : OrdersState) (d : JSValue),
      (∀ (f : String) (pre suf : List String),
          requiredFields = pre ++ f :: suf →
          (∀ g ∈ pre, truthy (getField d g) = true) →
          getField d f = JSValue.undefined →
          postOrders st d =
            (⟨400, some false, some ("Missing required field: " ++ f), none⟩, st)) ∧
      (firstMissingField d = none → cartOf d = none →
          postOrders st d =
            (⟨400, some false, some "Cart items must be a non-empty array", none⟩,
             st)) ∧
      (firstMissingField d = none → cartOf d = some [] →
          postOrders st d =
            (⟨400, some false, some "Cart items must be a non-empty array", none⟩,
             st)) ∧
      (∀ items, firstMissingField d = none → cartOf d = some items →
          items ≠ [] → checkItems items = CheckResult.bad →
          postOrders st d =
            (⟨400, some false,
              some "Each cart item must have name, price, and quantity", none⟩,
             st)) ∧
      (∀ items qoid, firstMissingField d = none → cartOf d = some items →
          items ≠ [] → checkItems items = CheckResult.ok →
          castString (getField d "orderId") = some qoid →
          st.orders.find? (fun o => o.record.orderId == qoid) = none →
          castOrder d = none →
          postOrders st d =
            (⟨500, some false, some "Order failed: ValidationError", none⟩, st)) ∧
      (∀ items qoid rec, firstMissingField d = none → cartOf d = some items →
          items ≠ [] → checkItems items = CheckResult.ok →
          castString (getField d "orderId") = some qoid →
          st.orders.find? (fun o => o.record.orderId == qoid) = none →
          castOrder d = some rec →
          postOrders st d =
            (⟨201, some true, some "Order placed", some st.nextId⟩,
             ⟨st.orders ++ [⟨st.nextId, rec⟩], st.nextId + 1⟩) ∧
          castItems items = some rec.cartItems ∧
          getField d "cartItems" = JSValue.arrV items) ∧
      (∀ (nm : String) (pr qt : Int),
          castCartItem (.objV [("name", .strV nm), ("price", .numV pr),
            ("quantity", .numV qt)]) = some ⟨nm, pr, qt, none, none, none⟩) := by
  intro st d
  refine ⟨?_, ?_, ?_, ?_, ?_, ?_, ?_⟩
  · intro f pre suf hreq hpre hf
    have hfm : firstMissingField d = some f := by
      unfold firstMissingField
      rw [hreq]
      apply find?_prefix_first
      · intro g hg
        simp [hpre g hg]
      · simp [hf, truthy]
    simp [postOrders, hfm]
  · intro h1 h2
    simp [postOrders, h1, h2]
  · intro h1 h2
    simp [postOrders, h1, h2]
  · intro items h1 h2 hne hbad
    have hemp : items.isEmpty = false := by
      cases items with
      | nil => exact absurd rfl hne
      | cons a l => rfl
    simp [postOrders, h1, h2, hemp, hbad]
  · intro items qoid h1 h2 hne hok hcast hfind hord
    have hemp : items.isEmpty = false := by
      cases items with
      | nil => exact absurd rfl hne
      | cons a l => rfl
    simp [postOrders, h1, h2, hemp, hok, hcast, hfind, hord]
  · intro items qoid rec h1 h2 hne hok hcast hfind hord
    have hemp : items.isEmpty = false := by
      cases items with
      | nil => exact absurd rfl hne
      | cons a l => rfl
    have hci : castItems items = some rec.cartItems := by
      have h3 := (castOrder_inv d rec hord).2
      rw [h2] at h3
      simpa using h3
    exact ⟨by simp [postOrders, h1, h2, hemp, hok, hcast, hfind, hord],
           hci, cartOf_some d items h2⟩
  · intro nm pr qt
    rfl

/-- Witness for postOrders_create_contract: the concrete valid payload is
stored once with internal id 0, the stored cartItems are the casts of the
input — here verbatim, the input being schema-typed. -/
theorem postOrders_create_contract_witness :
    postOrders ⟨[], 0⟩ orderPayload =
        (⟨201, some true, some "Order placed", some 0⟩,
         ⟨[⟨0, orderRecord1⟩], 1⟩) ∧
    castItems [cartItem1] = some orderRecord1.cartItems ∧
    getField orderPayload "cartItems" = JSValue.arrV [cartItem1] :=
  (postOrders_create_contract ⟨[], 0⟩ orderPayload).2.2.2.2.2.1 [cartItem1]
    "ORD-1" orderRecord1 rfl rfl (by simp) rfl rfl rfl rfl

/-- C9: the required-field checks of POST /orders test JavaScript
truthiness rather than presence — a payload whose required field is
present but falsy is answered 400 with the collection untouched, and the
whole response is the one the payload without that field would get; a
cart item whose price or quantity is 0 likewise yields the 400 cart-item
rejection with nothing stored. -/
theorem postOrders_truthiness_contract :
    ∀ (st : OrdersState) (d : JSValue) (f : String),
      (f ∈ requiredFields → truthy (getField d f) = false →
        (postOrders st d).1.status = 400 ∧
        (postOrders st d).2 = st ∧
        postOrders st d = postOrders st (removeField d f)) ∧
      (∀ items, firstMissingField d = none → cartOf d = some items →
        items ≠ [] → checkItems items = CheckResult.bad →
        postOrders st d =
          (⟨400, some false,
            some "Each cart item must have name, price, and quantity", none⟩,
           st)) := by
  intro st d f
  constructor
  · intro hf hfalsy
    have hsome : (firstMissingField d).isSome := by
      unfold firstMissingField
      exact List.find?_isSome.mpr ⟨f, hf, by simp [hfalsy]⟩
    obtain ⟨g, hg⟩ := Option.isSome_iff_exists.mp hsome
    have hsame : firstMissingField (removeField d f) = firstMissingField d := by
      unfold firstMissingField
      apply find?_pointwise
      intro a ha
      by_cases haf : a = f
      · have hremove : getField (removeField d f) a = JSValue.undefined := by
          rw [haf]
          exact getField_removeField_self d f
        show (!(truthy (getField (removeField d f) a))) =
            (!(truthy (getField d a)))
        rw [hremove, haf, hfalsy]
        rfl
      · rw [getField_removeField_ne d f a haf]
    refine ⟨by simp [postOrders, hg], by simp [postOrders, hg], ?_⟩
    simp only [postOrders, hsame, hg]
  · intro items h1 h2 hne hbad
    have hemp : items.isEmpty = false := by
      cases items with
      | nil => exact absurd rfl hne
      | cons a l => rfl
    simp [postOrders, h1, h2, hemp, hbad]

/-- Witness for postOrders_truthiness_contract: totalAmount present but 0
is rejected 400 exactly like the payload without totalAmount, and a cart
line with price 0 draws the cart-item 400; the empty collection stays
empty both times. -/
theorem postOrders_truthiness_witness :
    ((postOrders ⟨[], 0⟩ orderPayloadZeroTotal).1.status = 400 ∧
     (postOrders ⟨[], 0⟩ orderPayloadZeroTotal).2 = ⟨[], 0⟩ ∧
     postOrders ⟨[], 0⟩ orderPayloadZeroTotal =
       postOrders ⟨[], 0⟩ (removeField orderPayloadZeroTotal "totalAmount")) ∧
    postOrders ⟨[], 0⟩ orderPayloadZeroPrice =
      (⟨400, some false,
        some "Each cart item must have name, price, and quantity", none⟩,
       ⟨[], 0⟩) :=
  ⟨(postOrders_truthiness_contract ⟨[], 0⟩ orderPayloadZeroTotal "totalAmount").1
      (by simp [requiredFields]) rfl,
   (postOrders_truthiness_contract ⟨[], 0⟩ orderPayloadZeroPrice "name").2
      [cartItemZeroPrice] rfl rfl (by simp) rfl⟩
